import Mathlib

/-!
Verification development for the voxel engine core of the Minecraft-Clone
repository (src/engine.rs, src/lib.rs, src/player.rs).

The Rust code is shallowly embedded: f32 values are modelled as exact
rationals (every concrete input used below is a dyadic rational on which
f32 arithmetic is exact), usize values as Nat, and fallible operations
(array indexing that can panic, the todo! marker, usize subtraction that
can underflow) as Option-returning functions where none models a panic.
-/

namespace MC

/-! ## Data model (src/lib.rs) -/

inductive BlockType
  | Air
  | Water
  | Grass
  | Stone
deriving DecidableEq

structure Block where
  block_type : BlockType
deriving DecidableEq

/-- Modelled from the spec: the field is_solid read by player.rs is absent
from the Block struct declared in lib.rs; spec section 3 defines it as
derived at construction time, true iff the block type is Grass. -/
def Block.is_solid (b : Block) : Bool := b.block_type = BlockType.Grass

/-- A chunk block grid, indexed grid[x][y][z] as in the source. -/
abbrev Grid := List (List (List Block))

/-- Bounds-checked triple indexing; none models a Rust index-out-of-bounds
panic. -/
def idx3 (g : Grid) (x y z : Nat) : Option Block :=
  ((g.get? x).bind fun c => c.get? y).bind fun r => r.get? z

/-- Exact model of an f32 triple (positions). -/
structure V3 where
  x : ℚ
  y : ℚ
  z : ℚ
deriving DecidableEq

structure Vertex where
  position : V3
  tex_coords : ℚ × ℚ
deriving DecidableEq

inductive Face
  | Top
  | Bottom
  | Left
  | Right
  | Back
  | Front
deriving DecidableEq

/-! ## Texture atlas mapping (src/engine.rs, get_texture_coords) -/

def NUM_SPRITES_IN_TEXTURE : ℕ := 16

def SPRITE_SIZE : ℚ := 1 / (NUM_SPRITES_IN_TEXTURE : ℚ)

def get_texture_coords (index : ℕ) : List (ℚ × ℚ) :=
  let row := index / NUM_SPRITES_IN_TEXTURE
  let col := index % NUM_SPRITES_IN_TEXTURE
  let min_x : ℚ := (col : ℚ) * SPRITE_SIZE
  let max_x : ℚ := min_x + SPRITE_SIZE
  let min_y : ℚ := (row : ℚ) * SPRITE_SIZE
  let max_y : ℚ := min_y + SPRITE_SIZE
  [(min_x, min_y), (max_x, max_y), (min_x, max_y), (max_x, min_y)]

/-! ## Face geometry and sprite selection
(src/engine.rs, get_mesh_texture_and_pos).  The source ends in
`_ => todo!()` for every block type other than Grass: that is a panic,
modelled as none. -/

def get_mesh_texture_and_pos (face : Face) (block_type : BlockType) (pos : V3)
    (grass_above : Bool) : Option (List Vertex) :=
  let vertices : List V3 :=
    match face with
    | Face.Top =>
        [⟨pos.x - 1/2, pos.y + 1/2, pos.z - 1/2⟩, ⟨pos.x + 1/2, pos.y + 1/2, pos.z + 1/2⟩,
         ⟨pos.x + 1/2, pos.y + 1/2, pos.z - 1/2⟩, ⟨pos.x - 1/2, pos.y + 1/2, pos.z + 1/2⟩]
    | Face.Bottom =>
        [⟨pos.x + 1/2, pos.y - 1/2, pos.z - 1/2⟩, ⟨pos.x - 1/2, pos.y - 1/2, pos.z + 1/2⟩,
         ⟨pos.x - 1/2, pos.y - 1/2, pos.z - 1/2⟩, ⟨pos.x + 1/2, pos.y - 1/2, pos.z + 1/2⟩]
    | Face.Left =>
        [⟨pos.x - 1/2, pos.y - 1/2, pos.z + 1/2⟩, ⟨pos.x - 1/2, pos.y + 1/2, pos.z - 1/2⟩,
         ⟨pos.x - 1/2, pos.y - 1/2, pos.z - 1/2⟩, ⟨pos.x - 1/2, pos.y + 1/2, pos.z + 1/2⟩]
    | Face.Right =>
        [⟨pos.x + 1/2, pos.y - 1/2, pos.z - 1/2⟩, ⟨pos.x + 1/2, pos.y + 1/2, pos.z + 1/2⟩,
         ⟨pos.x + 1/2, pos.y - 1/2, pos.z + 1/2⟩, ⟨pos.x + 1/2, pos.y + 1/2, pos.z - 1/2⟩]
    | Face.Front =>
        [⟨pos.x + 1/2, pos.y - 1/2, pos.z + 1/2⟩, ⟨pos.x - 1/2, pos.y + 1/2, pos.z + 1/2⟩,
         ⟨pos.x - 1/2, pos.y - 1/2, pos.z + 1/2⟩, ⟨pos.x + 1/2, pos.y + 1/2, pos.z + 1/2⟩]
    | Face.Back =>
        [⟨pos.x - 1/2, pos.y - 1/2, pos.z - 1/2⟩, ⟨pos.x + 1/2, pos.y + 1/2, pos.z - 1/2⟩,
         ⟨pos.x + 1/2, pos.y - 1/2, pos.z - 1/2⟩, ⟨pos.x - 1/2, pos.y + 1/2, pos.z - 1/2⟩]
  match block_type with
  | BlockType.Grass =>
      let index : ℕ :=
        match face with
        | Face.Left | Face.Right | Face.Back | Face.Front => if grass_above then 1 else 2
        | Face.Top => 3
        | Face.Bottom => 1
      let texture_coords := get_texture_coords index
      some ((List.zip vertices texture_coords).map fun vt => ⟨vt.1, vt.2⟩)
  | _ => none

/-! ## Per-face emission (src/engine.rs, get_block_face) -/

/-- The value of the render flag computed by get_block_face: the in-chunk
neighbor is consulted first; only when it is absent is the neighbor-chunk
block consulted; when both are absent the face is not rendered. -/
def face_should_render (neighbor_block_option neighbor_chunk_block_option : Option Block) :
    Bool :=
  match neighbor_block_option with
  | some neighbor_block => decide (neighbor_block.block_type = BlockType.Air)
  | none =>
      match neighbor_chunk_block_option with
      | some neighbor_chunk_block => decide (neighbor_chunk_block.block_type = BlockType.Air)
      | none => false

def get_block_face (base_index : ℕ) (face : Face) (neighbor_block_option : Option Block)
    (block : Block) (pos : V3) (vertices : List Vertex) (indices : List ℕ)
    (grass_above : Bool) (neighbor_chunk_block_option : Option Block) :
    Option (List Vertex × List ℕ) :=
  if face_should_render neighbor_block_option neighbor_chunk_block_option then
    (get_mesh_texture_and_pos face block.block_type pos grass_above).map fun vs =>
      (vertices ++ vs,
       indices ++ [base_index + 3, base_index + 2, base_index,
                   base_index + 1, base_index + 2, base_index + 3])
  else
    some (vertices, indices)

/-! ## Chunk mesh building (src/engine.rs, State::build_chunk).
The body of the triple loop is factored out; the loop itself is the
enumerated fold below.  The neighbor-chunk lookups index the neighbor grid
unconditionally when the grid is present, exactly as the source does
(left_chunk.map_or(None, ...) with the index inside the closure), so a
too-small neighbor grid is a panic (none) even when the in-chunk neighbor
exists. -/

def build_chunk_body (blocks : Grid) (x_offset z_offset : ℚ)
    (left_chunk right_chunk front_chunk back_chunk : Option Grid)
    (x : ℕ) (column : List (List Block)) (y : ℕ) (row : List Block) (z : ℕ) (block : Block)
    (st : List Vertex × List ℕ) : Option (List Vertex × List ℕ) :=
  -- the source does `continue` on Air; the Option.bind chain sequences
  -- the panicking lookups exactly as the statements of the source body
  if block.block_type = BlockType.Air then some st
  else
    let pos : V3 := ⟨(x : ℚ) + x_offset, (y : ℚ), (z : ℚ) + z_offset⟩
    Option.bind
      (if y + 1 < column.length then
        (idx3 blocks x (y + 1) z).map fun b => decide (b.block_type = BlockType.Grass)
      else some false) fun grass_above =>
    -- Top face
    Option.bind
      (if y + 1 < column.length then (idx3 blocks x (y + 1) z).map some else some none)
      fun neighbor =>
    Option.bind (get_block_face st.1.length Face.Top neighbor block pos st.1 st.2 false none)
      fun st =>
    -- Bottom face
    Option.bind
      (if y > 0 then (idx3 blocks x (y - 1) z).map some else some none) fun neighbor =>
    Option.bind (get_block_face st.1.length Face.Bottom neighbor block pos st.1 st.2 false none)
      fun st =>
    -- Left face
    Option.bind
      (if x > 0 then (idx3 blocks (x - 1) y z).map some else some none) fun neighbor =>
    Option.bind
      (match left_chunk with
       | none => some none
       | some chunk => (idx3 chunk 15 y z).map some) fun neighbor_chunk =>
    Option.bind
      (get_block_face st.1.length Face.Left neighbor block pos st.1 st.2 grass_above
        neighbor_chunk) fun st =>
    -- Right face
    Option.bind
      (if x + 1 < blocks.length then (idx3 blocks (x + 1) y z).map some else some none)
      fun neighbor =>
    Option.bind
      (match right_chunk with
       | none => some none
       | some chunk => (idx3 chunk 0 y z).map some) fun neighbor_chunk =>
    Option.bind
      (get_block_face st.1.length Face.Right neighbor block pos st.1 st.2 grass_above
        neighbor_chunk) fun st =>
    -- Front face
    Option.bind
      (if z + 1 < row.length then (idx3 blocks x y (z + 1)).map some else some none)
      fun neighbor =>
    Option.bind
      (match front_chunk with
       | none => some none
       | some chunk => (idx3 chunk x y 0).map some) fun neighbor_chunk =>
    Option.bind
      (get_block_face st.1.length Face.Front neighbor block pos st.1 st.2 grass_above
        neighbor_chunk) fun st =>
    -- Back face
    Option.bind
      (if z > 0 then (idx3 blocks x y (z - 1)).map some else some none) fun neighbor =>
    Option.bind
      (match back_chunk with
       | none => some none
       | some chunk => (idx3 chunk x y 15).map some) fun neighbor_chunk =>
    get_block_face st.1.length Face.Back neighbor block pos st.1 st.2 grass_above neighbor_chunk

def build_chunk (blocks : Grid) (x_offset z_offset : ℚ)
    (left_chunk right_chunk front_chunk back_chunk : Option Grid) :
    Option (List Vertex × List ℕ) :=
  blocks.enum.foldlM
    (fun st xc =>
      xc.2.enum.foldlM
        (fun st yr =>
          yr.2.enum.foldlM
            (fun st zb =>
              build_chunk_body blocks x_offset z_offset left_chunk right_chunk front_chunk
                back_chunk xc.1 xc.2 yr.1 yr.2 zb.1 zb.2 st)
            st)
        st)
    ([], [])

/-! ## Terrain generation (src/lib.rs, chunk_gen).
The source ignores its seed argument and returns a hard-coded grid named
test_blocks: 4 x-columns, each of 4 y-rows, each of 6 z-blocks, every
entry a Grass block literal. -/

def chunk_gen (_seed : ℕ) : Grid :=
  let g : Block := ⟨BlockType.Grass⟩
  [ [ [g, g, g, g, g, g], [g, g, g, g, g, g], [g, g, g, g, g, g], [g, g, g, g, g, g] ],
    [ [g, g, g, g, g, g], [g, g, g, g, g, g], [g, g, g, g, g, g], [g, g, g, g, g, g] ],
    [ [g, g, g, g, g, g], [g, g, g, g, g, g], [g, g, g, g, g, g], [g, g, g, g, g, g] ],
    [ [g, g, g, g, g, g], [g, g, g, g, g, g], [g, g, g, g, g, g], [g, g, g, g, g, g] ] ]

/-- A chunk: its block grid plus its built mesh (src/lib.rs, struct Chunk).
The mesh is the build result; none models a build that panicked. -/
structure Chunk where
  blocks : Grid
  mesh : Option (List Vertex × List ℕ)
deriving DecidableEq

/-! ## World assembly (src/lib.rs, create_terrain).
The source function does not compile as written: the array initializer
`[Chunk {blocks: chunk_gen(1), state.build_chunk(&mut default_chunk)}; 256]`
is missing the mesh field name and Chunk is not Copy, and every call
`state.build_chunk(&mut default_chunk)` passes one argument to a function
of eight parameters (grid, x_offset, z_offset and the four optional
neighbor grids).  The model below keeps what the text plainly does:
an array of 256 chunks, each slot holding a grid from chunk_gen(1) and a
mesh built from that grid with no offsets and no neighbor grids, the loop
`for i in 0..255` rebuilding slots 0 through 254. -/

def create_terrain : List Chunk :=
  let default_chunk := chunk_gen 1
  let mesh := build_chunk default_chunk 0 0 none none none none
  let init : List Chunk := List.replicate 256 ⟨chunk_gen 1, mesh⟩
  (List.range 255).foldl
    (fun chunks i =>
      let blocks := chunk_gen 1
      let mesh := build_chunk blocks 0 0 none none none none
      chunks.set i ⟨blocks, mesh⟩)
    init

/-! ## Player state (src/player.rs) -/

/-- An f32 value modelled exactly. -/
structure NPoint3 where
  x : ℕ
  y : ℕ
  z : ℕ
deriving DecidableEq

structure Player where
  amount_left : ℚ
  amount_right : ℚ
  amount_forward : ℚ
  amount_backward : ℚ
  amount_up : ℚ
  rotate_horizontal : ℚ
  rotate_vertical : ℚ
  speed : ℚ
  fall_speed : ℚ
  sensitivity : ℚ
  jump : Bool
  jump_am : ℚ
  local_pos : V3
  world_pos : NPoint3
deriving DecidableEq

def Player.new (speed sensitivity : ℚ) : Player :=
  { amount_left := 0, amount_right := 0, amount_forward := 0, amount_backward := 0,
    amount_up := 0, rotate_horizontal := 0, rotate_vertical := 0,
    speed := speed, fall_speed := 30, sensitivity := sensitivity,
    jump := false, jump_am := 0,
    local_pos := ⟨1/2, 1/2, 0⟩, world_pos := ⟨30, 29, 30⟩ }

/-- Modelled from the spec: the camera module (src/camera.rs) is not among
the provided sources; player.rs reads and writes its yaw, pitch and
position fields, which is all the model needs. -/
structure Camera where
  position : V3
  yaw : ℚ
  pitch : ℚ
deriving DecidableEq

/-- The f32 constant FRAC_PI_2 - 0.0001 from player.rs, as the exact value
of that f32 subtraction.  No claim depends on its numeric value. -/
def SAFE_FRAC_PI_2 : ℚ := 13175956 / 8388608

/-- Chunk-index arithmetic from player.rs line 91:
(world_pos.z / 16) + 16 * (world_pos.x / 16). -/
def chunk_index (wp : NPoint3) : ℕ := wp.z / 16 + 16 * (wp.x / 16)

/-- The x component of move_am = forward_am + right_am, with
forward = (yaw_cos, 0, yaw_sin) and right = (-yaw_sin, 0, yaw_cos)
(the source normalizes these; for the exact unit vector returned by
sin_cos the normalization is the identity, so yaw_sin and yaw_cos are
taken as the given unit-circle coordinates of the camera yaw). -/
def move_am_x (p : Player) (yaw_sin yaw_cos dt : ℚ) : ℚ :=
  yaw_cos * ((p.amount_forward - p.amount_backward) * p.speed * dt) +
    (-yaw_sin) * ((p.amount_right - p.amount_left) * p.speed * dt)

/-- The z component of move_am (see move_am_x). -/
def move_am_z (p : Player) (yaw_sin yaw_cos dt : ℚ) : ℚ :=
  yaw_sin * ((p.amount_forward - p.amount_backward) * p.speed * dt) +
    yaw_cos * ((p.amount_right - p.amount_left) * p.speed * dt)

/-- The pair (block_right_bottom, block_right_top) probed by the collision
check, player.rs lines 102-114.  The y - 1 subtraction is usize: y = 0 is
a panic (none).  When world_pos.z is at a chunk boundary (z mod 16 = 0)
both probes read the left neighbor chunk at z = 15; otherwise the bottom
probe reads the current chunk and the top probe reads the left chunk, both
at z mod 16 - 1, exactly as in the source. -/
def right_probe (cur_chunk left_chunk : Chunk) (wp : NPoint3) : Option (Block × Block) :=
  if wp.z % 16 = 0 then
    if wp.y = 0 then none else
      Option.bind (idx3 left_chunk.blocks (wp.x % 16) (wp.y - 1) 15) fun b1 =>
      Option.bind (idx3 left_chunk.blocks (wp.x % 16) wp.y 15) fun b2 =>
      some (b1, b2)
  else
    if wp.y = 0 then none else
      Option.bind (idx3 cur_chunk.blocks (wp.x % 16) (wp.y - 1) (wp.z % 16 - 1)) fun b1 =>
      Option.bind (idx3 left_chunk.blocks (wp.x % 16) wp.y (wp.z % 16 - 1)) fun b2 =>
      some (b1, b2)

/-- The condition under which the source withholds the move
(player.rs lines 120-123, negated guard around local_pos += move_am). -/
def move_blocked (p : Player) (mvx : ℚ) (block_right_bottom block_right_top : Block) : Bool :=
  decide (p.local_pos.x < 1/10) &&
    (block_right_bottom.is_solid || block_right_top.is_solid) &&
    decide (mvx > 1/100)

/-- Player::update_camera (player.rs lines 83-173).  dt is the elapsed
time in seconds; yaw_sin and yaw_cos stand for camera.yaw.sin_cos().
none models a panic: a chunk array access out of 0..256, a usize
subtraction underflow, or a block grid access out of bounds. -/
def update_camera (p : Player) (camera : Camera) (dt : ℚ) (chunks : List Chunk)
    (yaw_sin yaw_cos : ℚ) : Option (Player × Camera) :=
  let cur_chunk_index := chunk_index p.world_pos
  Option.bind (chunks.get? cur_chunk_index) fun cur_chunk =>
  -- usize subtraction cur_chunk_index - 16 underflows for indices below 16
  Option.bind
    (if cur_chunk_index < 16 then none else chunks.get? (cur_chunk_index - 16))
    fun _front_chunk =>
  Option.bind (chunks.get? (cur_chunk_index + 16)) fun _back_chunk =>
  Option.bind (chunks.get? (cur_chunk_index + 1)) fun left_chunk =>
  Option.bind
    (if cur_chunk_index = 0 then none else chunks.get? (cur_chunk_index - 1))
    fun _right_chunk =>
  let mvx := move_am_x p yaw_sin yaw_cos dt
  let mvz := move_am_z p yaw_sin yaw_cos dt
  Option.bind (right_probe cur_chunk left_chunk p.world_pos) fun probes =>
  let blocked := move_blocked p mvx probes.1 probes.2
  let lp : V3 := if blocked then p.local_pos else
    ⟨p.local_pos.x + mvx, p.local_pos.y, p.local_pos.z + mvz⟩
  -- boundary transfers, in source order: x > 1, z > 1, x < -1, z < -1;
  -- the pairs are (local component, world component)
  let tx0 : ℚ × ℕ := if lp.x > 1 then (lp.x - 1, p.world_pos.x + 1) else (lp.x, p.world_pos.x)
  let tz0 : ℚ × ℕ := if lp.z > 1 then (lp.z - 1, p.world_pos.z + 1) else (lp.z, p.world_pos.z)
  Option.bind
    (if tx0.1 < -1 then
      (if tx0.2 = 0 then none else some (tx0.1 + 1, tx0.2 - 1)) else some tx0) fun tx =>
  Option.bind
    (if tz0.1 < -1 then
      (if tz0.2 = 0 then none else some (tz0.1 + 1, tz0.2 - 1)) else some tz0) fun tz =>
  -- gravity: block two cells below, read in the chunk fetched above,
  -- at the already-transferred x and z; usize y - 2 underflows for y < 2
  Option.bind
    (if p.world_pos.y < 2 then none else
      idx3 cur_chunk.blocks (tx.2 % 16) (p.world_pos.y - 2) (tz.2 % 16)) fun block_bottom =>
  Option.bind
    (if block_bottom.block_type = BlockType.Air then
      let ly := lp.y - p.fall_speed * dt
      if ly < -1 then
        (if p.world_pos.y = 0 then none else some (ly + 1, p.world_pos.y - 1))
      else some (ly, p.world_pos.y)
    else some (lp.y, p.world_pos.y)) fun ty =>
  let yaw2 := camera.yaw + p.rotate_horizontal * p.sensitivity * dt
  let pitch2 := camera.pitch + (-p.rotate_vertical) * p.sensitivity * dt
  let pitch3 := if pitch2 < -SAFE_FRAC_PI_2 then -SAFE_FRAC_PI_2
    else if pitch2 > SAFE_FRAC_PI_2 then SAFE_FRAC_PI_2 else pitch2
  let p2 : Player :=
    { p with rotate_horizontal := 0, rotate_vertical := 0,
             local_pos := ⟨tx.1, ty.1, tz.1⟩, world_pos := ⟨tx.2, ty.2, tz.2⟩ }
  let cam2 : Camera :=
    ⟨⟨tx.1 + (tx.2 : ℚ), ty.1 + (ty.2 : ℚ), tz.1 + (tz.2 : ℚ)⟩, yaw2, pitch3⟩
  some (p2, cam2)

/-! ## Shared concrete fixtures -/

def air_block : Block := ⟨BlockType.Air⟩

def grass_block : Block := ⟨BlockType.Grass⟩

/-- A full 16 x 30 x 16 all-Air chunk grid (the extents from spec section 3). -/
def air_grid : Grid := List.replicate 16 (List.replicate 30 (List.replicate 16 air_block))

def air_chunk : Chunk := ⟨air_grid, none⟩

/-- A 256-chunk world whose blocks are all Air. -/
def world_air : List Chunk := List.replicate 256 air_chunk

/-! ## Theorems -/

/-- Claim C3 (code_bug evaluation): the terrain generator of the source,
chunk_gen, ignores its seed, takes no chunk offset, and returns a fixed
4 x 4 x 6 grid in which every block is Grass.  This contradicts the
claimed 16(width) x 16(depth) x 30(height) noise-derived grid: the outer
length is 4, not 16, and no Air block ever appears. -/
theorem c3_chunk_gen_eval :
    (chunk_gen 1).length = 4 ∧ (chunk_gen 1).length ≠ 16 ∧
      (∀ seed : ℕ, chunk_gen seed = chunk_gen 1) ∧
      ((chunk_gen 1).all fun c =>
        decide (c.length = 4) && c.all fun r =>
          decide (r.length = 6) && r.all fun b =>
            decide (b.block_type = BlockType.Grass)) = true :=
  ⟨rfl, by decide, fun _ => rfl, by decide⟩

set_option maxRecDepth 4000 in
/-- Claim C4 (code_bug evaluation): world assembly in the source,
create_terrain, does not use the claimed two-pass structure.  Each of the
256 slots holds the same generated grid, and every mesh is built with all
four neighbor-grid arguments absent (no neighbor is ever passed), so the
world equals 256 copies of one chunk whose mesh was built neighborless. -/
theorem c4_create_terrain_eval :
    create_terrain.length = 256 ∧
      create_terrain =
        List.replicate 256 ⟨chunk_gen 1, build_chunk (chunk_gen 1) 0 0 none none none none⟩ :=
  ⟨rfl, rfl⟩

/-- Claim C5: for Grass the mapper selects sprite 3 for Top, sprite 1 for
Bottom, and for each lateral face sprite 1 when grass_above else sprite 2;
and a sprite index is converted to the UV rectangle with corners
(col/16, row/16) and ((col+1)/16, (row+1)/16) for row = index/16,
col = index%16, the four returned pairs being the four corners. -/
theorem c5_texture_mapping :
    (∀ index : ℕ,
      get_texture_coords index =
        [(((index % 16 : ℕ) : ℚ) / 16, ((index / 16 : ℕ) : ℚ) / 16),
         ((((index % 16 : ℕ) : ℚ) + 1) / 16, (((index / 16 : ℕ) : ℚ) + 1) / 16),
         (((index % 16 : ℕ) : ℚ) / 16, (((index / 16 : ℕ) : ℚ) + 1) / 16),
         ((((index % 16 : ℕ) : ℚ) + 1) / 16, ((index / 16 : ℕ) : ℚ) / 16)]) ∧
    (∀ pos ga,
      (get_mesh_texture_and_pos Face.Top BlockType.Grass pos ga).map
          (fun vs => vs.map Vertex.tex_coords) = some (get_texture_coords 3)) ∧
    (∀ pos ga,
      (get_mesh_texture_and_pos Face.Bottom BlockType.Grass pos ga).map
          (fun vs => vs.map Vertex.tex_coords) = some (get_texture_coords 1)) ∧
    (∀ pos ga,
      (get_mesh_texture_and_pos Face.Left BlockType.Grass pos ga).map
          (fun vs => vs.map Vertex.tex_coords) = some (get_texture_coords (if ga then 1 else 2))) ∧
    (∀ pos ga,
      (get_mesh_texture_and_pos Face.Right BlockType.Grass pos ga).map
          (fun vs => vs.map Vertex.tex_coords) = some (get_texture_coords (if ga then 1 else 2))) ∧
    (∀ pos ga,
      (get_mesh_texture_and_pos Face.Front BlockType.Grass pos ga).map
          (fun vs => vs.map Vertex.tex_coords) = some (get_texture_coords (if ga then 1 else 2))) ∧
    (∀ pos ga,
      (get_mesh_texture_and_pos Face.Back BlockType.Grass pos ga).map
          (fun vs => vs.map Vertex.tex_coords) = some (get_texture_coords (if ga then 1 else 2))) := by
  refine ⟨?_, fun pos ga => rfl, fun pos ga => rfl, ?_, ?_, ?_, ?_⟩
  · intro index
    simp only [get_texture_coords, NUM_SPRITES_IN_TEXTURE, SPRITE_SIZE]
    norm_num
    constructor <;> ring_nf <;> simp
  all_goals intro pos ga; cases ga <;> rfl

/-- Helper: every block type other than Grass falls into the todo! arm of
get_mesh_texture_and_pos, modelled as none. -/
theorem gm_non_grass_none (face : Face) (block_type : BlockType) (pos : V3) (ga : Bool)
    (h : block_type ≠ BlockType.Grass) :
    get_mesh_texture_and_pos face block_type pos ga = none := by
  cases block_type <;> first | rfl | exact absurd rfl h

/-- Claim C8: a block type with no defined face-sprite mapping (Water and
Stone in particular) makes the texture mapper hit the todo! arm, a fatal
failure (none) rather than any default sprite; and a face emission for
such a block (an Air neighbor forces rendering) is likewise fatal. -/
theorem c8_unmapped_block_fatal :
    (∀ face block_type pos ga, block_type ≠ BlockType.Grass →
      get_mesh_texture_and_pos face block_type pos ga = none) ∧
    (∀ base face b pos v i ga nc (nb : Block), nb.block_type = BlockType.Air →
      b.block_type ≠ BlockType.Grass →
      get_block_face base face (some nb) b pos v i ga nc = none) := by
  refine ⟨gm_non_grass_none, ?_⟩
  intro base face b pos v i ga nc nb hnb hb
  simp [get_block_face, face_should_render, hnb,
    gm_non_grass_none face b.block_type pos ga hb]

/-- Helper: a successful face-texture lookup returns exactly 4 vertices. -/
theorem gm_length (face : Face) (bt : BlockType) (pos : V3) (ga : Bool) (vs : List Vertex)
    (h : get_mesh_texture_and_pos face bt pos ga = some vs) : vs.length = 4 := by
  cases bt with
  | Grass =>
      cases face <;>
        (simp only [get_mesh_texture_and_pos, Option.some.injEq] at h; subst h;
         cases ga <;> rfl)
  | _ => simp [get_mesh_texture_and_pos] at h

/-- Helper: get_block_face either leaves the accumulators unchanged or
appends exactly 4 vertices and the fixed 6-index pattern at base. -/
theorem gbf_cases (base : ℕ) (face : Face) (nb : Option Block) (b : Block) (pos : V3)
    (v : List Vertex) (i : List ℕ) (ga : Bool) (nc : Option Block) (v2 : List Vertex)
    (i2 : List ℕ)
    (h : get_block_face base face nb b pos v i ga nc = some (v2, i2)) :
    (v2 = v ∧ i2 = i) ∨
      ∃ vs, vs.length = 4 ∧ v2 = v ++ vs ∧
        i2 = i ++ [base + 3, base + 2, base, base + 1, base + 2, base + 3] := by
  unfold get_block_face at h
  split at h
  · rcases Option.map_eq_some'.mp h with ⟨vs, hvs, heq⟩
    right
    refine ⟨vs, gm_length _ _ _ _ _ hvs, ?_, ?_⟩
    · exact (congrArg Prod.fst heq).symm
    · exact (congrArg Prod.snd heq).symm
  · left
    have h2 := Option.some.inj h
    exact ⟨(congrArg Prod.fst h2).symm, (congrArg Prod.snd h2).symm⟩

/-- The mesh-count invariant: 4 vertices and 6 indices per emitted face. -/
def MeshInv (st : List Vertex × List ℕ) : Prop :=
  ∃ n, st.1.length = 4 * n ∧ st.2.length = 6 * n

theorem gbf_inv (face : Face) (nb : Option Block) (b : Block) (pos : V3) (ga : Bool)
    (nc : Option Block) (st st2 : List Vertex × List ℕ)
    (h : get_block_face st.1.length face nb b pos st.1 st.2 ga nc = some st2)
    (hst : MeshInv st) : MeshInv st2 := by
  rcases st2 with ⟨v2, i2⟩
  rcases gbf_cases _ _ _ _ _ _ _ _ _ _ _ h with ⟨hv, hi⟩ | ⟨vs, hlen, hv, hi⟩
  · subst hv; subst hi
    rcases hst with ⟨n, h1, h2⟩
    exact ⟨n, h1, h2⟩
  · rcases hst with ⟨n, h1, h2⟩
    refine ⟨n + 1, ?_, ?_⟩
    · simp only [hv, List.length_append, h1, hlen]; ring
    · simp only [hi, List.length_append, h2, List.length_cons, List.length_nil]; ring

theorem body_inv (blocks : Grid) (xo zo : ℚ) (lc rc fc bc : Option Grid)
    (x : ℕ) (column : List (List Block)) (y : ℕ) (row : List Block) (z : ℕ) (block : Block)
    (st st2 : List Vertex × List ℕ)
    (h : build_chunk_body blocks xo zo lc rc fc bc x column y row z block st = some st2)
    (hst : MeshInv st) : MeshInv st2 := by
  by_cases hA : block.block_type = BlockType.Air
  · rw [build_chunk_body.eq_def, if_pos hA] at h
    exact (Option.some.inj h) ▸ hst
  · rw [build_chunk_body.eq_def, if_neg hA] at h
    rcases Option.bind_eq_some.mp h with ⟨ga, _, h⟩
    rcases Option.bind_eq_some.mp h with ⟨nb1, _, h⟩
    rcases Option.bind_eq_some.mp h with ⟨s1, h1, h⟩
    rcases Option.bind_eq_some.mp h with ⟨nb2, _, h⟩
    rcases Option.bind_eq_some.mp h with ⟨s2, h2, h⟩
    rcases Option.bind_eq_some.mp h with ⟨nb3, _, h⟩
    rcases Option.bind_eq_some.mp h with ⟨ncb3, _, h⟩
    rcases Option.bind_eq_some.mp h with ⟨s3, h3, h⟩
    rcases Option.bind_eq_some.mp h with ⟨nb4, _, h⟩
    rcases Option.bind_eq_some.mp h with ⟨ncb4, _, h⟩
    rcases Option.bind_eq_some.mp h with ⟨s4, h4, h⟩
    rcases Option.bind_eq_some.mp h with ⟨nb5, _, h⟩
    rcases Option.bind_eq_some.mp h with ⟨ncb5, _, h⟩
    rcases Option.bind_eq_some.mp h with ⟨s5, h5, h⟩
    rcases Option.bind_eq_some.mp h with ⟨nb6, _, h⟩
    rcases Option.bind_eq_some.mp h with ⟨ncb6, _, h⟩
    exact gbf_inv _ _ _ _ _ _ _ _ h
      (gbf_inv _ _ _ _ _ _ _ _ h5
        (gbf_inv _ _ _ _ _ _ _ _ h4
          (gbf_inv _ _ _ _ _ _ _ _ h3
            (gbf_inv _ _ _ _ _ _ _ _ h2
              (gbf_inv _ _ _ _ _ _ _ _ h1 hst)))))

/-- Helper: a predicate preserved by every step of an Option-monad foldlM
holds for the result. -/
theorem foldlM_option_inv {α σ : Type _} (P : σ → Prop) (f : σ → α → Option σ)
    (hf : ∀ s a s2, f s a = some s2 → P s → P s2) :
    ∀ (l : List α) (s s2 : σ), l.foldlM f s = some s2 → P s → P s2 := by
  intro l
  induction l with
  | nil =>
      intro s s2 h hP
      simp only [List.foldlM] at h
      exact (Option.some.inj h) ▸ hP
  | cons a t ih =>
      intro s s2 h hP
      simp only [List.foldlM] at h
      rcases Option.bind_eq_some.mp h with ⟨s1, h1, h2⟩
      exact ih s1 s2 h2 (hf s a s1 h1 hP)

/-- Claim C2: for every successfully built chunk mesh, twice the index
count equals three times the vertex count (index count = 1.5 x vertex
count), the vertex count is a multiple of 4 and the index count a multiple
of 6; and each get_block_face call (with base the current vertex count, as
build_chunk passes it) either emits nothing or exactly 4 vertices together
with the 6 indices base+3, base+2, base, base+1, base+2, base+3. -/
theorem c2_mesh_counts :
    (∀ blocks x_offset z_offset lc rc fc bc (v : List Vertex) (i : List ℕ),
        build_chunk blocks x_offset z_offset lc rc fc bc = some (v, i) →
        2 * i.length = 3 * v.length ∧ v.length % 4 = 0 ∧ i.length % 6 = 0) ∧
    (∀ face nb b pos (v : List Vertex) (i : List ℕ) ga nc v2 i2,
        get_block_face v.length face nb b pos v i ga nc = some (v2, i2) →
        (v2 = v ∧ i2 = i) ∨
          ∃ vs, vs.length = 4 ∧ v2 = v ++ vs ∧
            i2 = i ++ [v.length + 3, v.length + 2, v.length, v.length + 1, v.length + 2,
              v.length + 3]) := by
  constructor
  · intro blocks xo zo lc rc fc bc v i h
    have hP : MeshInv (v, i) := by
      refine foldlM_option_inv MeshInv _ ?_ blocks.enum ([], []) (v, i) h ⟨0, rfl, rfl⟩
      intro s a s2 hsa hPs
      refine foldlM_option_inv MeshInv _ ?_ a.2.enum s s2 hsa hPs
      intro s3 a2 s4 h34 hP3
      refine foldlM_option_inv MeshInv _ ?_ a2.2.enum s3 s4 h34 hP3
      intro s5 a3 s6 h56 hP5
      exact body_inv _ _ _ _ _ _ _ _ _ _ _ _ _ _ _ h56 hP5
    rcases hP with ⟨n, h1, h2⟩
    have h1x : v.length = 4 * n := h1
    have h2x : i.length = 6 * n := h2
    omega
  · intro face nb b pos v i ga nc v2 i2 h
    exact gbf_cases _ _ _ _ _ _ _ _ _ _ _ h

/-- Claim C2 witness: both parts applied at concrete inputs (a one-block
Air grid builds the empty mesh; a face call with no neighbors appends
nothing). -/
theorem c2_mesh_counts_witness :
    (2 * ([] : List ℕ).length = 3 * ([] : List Vertex).length ∧
      ([] : List Vertex).length % 4 = 0 ∧ ([] : List ℕ).length % 6 = 0) ∧
    ((([] : List Vertex) = [] ∧ ([] : List ℕ) = []) ∨
      ∃ vs, vs.length = 4 ∧ ([] : List Vertex) = [] ++ vs ∧
        ([] : List ℕ) = [] ++ [([] : List Vertex).length + 3, ([] : List Vertex).length + 2,
          ([] : List Vertex).length, ([] : List Vertex).length + 1,
          ([] : List Vertex).length + 2, ([] : List Vertex).length + 3]) :=
  ⟨c2_mesh_counts.1 [[[⟨BlockType.Air⟩]]] 0 0 none none none none [] [] rfl,
   c2_mesh_counts.2 Face.Top none ⟨BlockType.Grass⟩ ⟨0, 0, 0⟩ [] [] false none [] [] rfl⟩

/-- The neighbor block that get_block_face resolves: the in-chunk neighbor
when present, otherwise the neighbor-chunk block when present, otherwise
nothing. -/
def resolved_neighbor (nb nc : Option Block) : Option Block :=
  match nb with
  | some n => some n
  | none => nc

theorem fsr_iff (nb nc : Option Block) :
    face_should_render nb nc = true ↔
      ∃ n, resolved_neighbor nb nc = some n ∧ n.block_type = BlockType.Air := by
  rcases nb with _ | nbb
  · rcases nc with _ | ncb <;> simp [face_should_render, resolved_neighbor]
  · simp [face_should_render, resolved_neighbor]

theorem gm_grass_some (face : Face) (pos : V3) (ga : Bool) :
    ∃ vs, get_mesh_texture_and_pos face BlockType.Grass pos ga = some vs ∧ vs.length = 4 := by
  cases face <;> exact ⟨_, rfl, by cases ga <;> rfl⟩

/-- Helper: for a Grass block a face call never panics, and it emits
something exactly when the resolved neighbor is Air. -/
theorem gbf_grass_char (base : ℕ) (face : Face) (nb : Option Block) (b : Block) (pos : V3)
    (v : List Vertex) (i : List ℕ) (ga : Bool) (nc : Option Block)
    (hb : b.block_type = BlockType.Grass) :
    (get_block_face base face nb b pos v i ga nc).isSome = true ∧
      (get_block_face base face nb b pos v i ga nc ≠ some (v, i) ↔
        ∃ n, resolved_neighbor nb nc = some n ∧ n.block_type = BlockType.Air) := by
  by_cases hr : face_should_render nb nc = true
  · rcases gm_grass_some face pos ga with ⟨vs, hvs, hlen⟩
    rw [get_block_face, if_pos hr, hb, hvs]
    constructor
    · rfl
    · rw [← fsr_iff]
      simp only [hr, iff_true, Option.map_some']
      intro hcontra
      have hfst := congrArg Prod.fst (Option.some.inj hcontra)
      have hvlen := congrArg List.length hfst
      simp [hlen] at hvlen
  · rw [get_block_face, if_neg hr]
    constructor
    · rfl
    · rw [← fsr_iff]
      simp [hr]

/-- A rectangular grid: every column has height H and every row depth D. -/
def RectGrid (g : Grid) (H D : ℕ) : Prop :=
  ∀ c ∈ g, c.length = H ∧ ∀ r ∈ c, r.length = D

/-- A grid whose blocks are all Grass or Air (the only types the texture
mapper supports). -/
def GrassAirGrid (g : Grid) : Prop :=
  ∀ c ∈ g, ∀ r ∈ c, ∀ b ∈ r,
    b.block_type = BlockType.Grass ∨ b.block_type = BlockType.Air

theorem bind_isSome {α β : Type _} {o : Option α} {f : α → Option β}
    (h1 : o.isSome) (h2 : ∀ a, (f a).isSome) : (o.bind f).isSome := by
  rcases Option.isSome_iff_exists.mp h1 with ⟨a, ha⟩
  rw [ha]
  exact h2 a

theorem if_isSome {α : Type _} {c : Prop} [Decidable c] {o o2 : Option α}
    (h1 : c → o.isSome) (h2 : o2.isSome) : (if c then o else o2).isSome := by
  split
  · exact h1 (by assumption)
  · exact h2

theorem map_isSome {α β : Type _} {o : Option α} (f : α → β) (h : o.isSome) :
    (o.map f).isSome := by
  rcases Option.isSome_iff_exists.mp h with ⟨a, ha⟩
  rw [ha]
  rfl

theorem idx3_isSome {g : Grid} {H D : ℕ} (hrect : RectGrid g H D)
    {x y z : ℕ} (hx : x < g.length) (hy : y < H) (hz : z < D) :
    (idx3 g x y z).isSome := by
  have hcm : g[x] ∈ g := List.getElem_mem hx
  rcases hrect _ hcm with ⟨hcl, hrl⟩
  have hyl : y < g[x].length := hcl ▸ hy
  have hrm : g[x][y] ∈ g[x] := List.getElem_mem hyl
  have hzl : z < g[x][y].length := (hrl _ hrm) ▸ hz
  simp [idx3, List.get?_eq_getElem?, List.getElem?_eq_getElem, hx, hyl, hzl]

theorem gbf_grass_isSome (base : ℕ) (face : Face) (nb : Option Block) (b : Block) (pos : V3)
    (v : List Vertex) (i : List ℕ) (ga : Bool) (nc : Option Block)
    (hb : b.block_type = BlockType.Grass) :
    (get_block_face base face nb b pos v i ga nc).isSome :=
  (gbf_grass_char base face nb b pos v i ga nc hb).1

theorem foldlM_option_isSome {α σ : Type _} (f : σ → α → Option σ) (l : List α)
    (hf : ∀ a ∈ l, ∀ s, (f s a).isSome) : ∀ s, (l.foldlM f s).isSome := by
  induction l with
  | nil => intro s; simp [List.foldlM]
  | cons a t ih =>
      intro s
      simp only [List.foldlM]
      refine bind_isSome (hf a (List.mem_cons_self a t) s) fun s1 => ?_
      exact ih (fun b hb s2 => hf b (List.mem_cons_of_mem a hb) s2) s1

/-- Helper: with all four neighbor grids absent, the per-block body never
panics on a rectangular Grass/Air grid. -/
theorem body_isSome (blocks : Grid) (xo zo : ℚ) {H D : ℕ}
    (hrect : RectGrid blocks H D) (hgrass : GrassAirGrid blocks)
    {x : ℕ} {column : List (List Block)} {y : ℕ} {row : List Block} {z : ℕ} {block : Block}
    (hx : blocks.get? x = some column) (hy : column.get? y = some row)
    (hz : row.get? z = some block) (st : List Vertex × List ℕ) :
    (build_chunk_body blocks xo zo none none none none x column y row z block st).isSome := by
  by_cases hA : block.block_type = BlockType.Air
  · rw [build_chunk_body.eq_def, if_pos hA]; rfl
  · have hcm : column ∈ blocks := List.get?_mem hx
    have hrm : row ∈ column := List.get?_mem hy
    have hbm : block ∈ row := List.get?_mem hz
    have hG : block.block_type = BlockType.Grass :=
      ((hgrass _ hcm _ hrm _ hbm).resolve_right hA)
    rcases hrect _ hcm with ⟨hcl, hrl⟩
    have hxlen : x < blocks.length := by
      rcases List.get?_eq_some.mp hx with ⟨h, _⟩; exact h
    have hylen : y < column.length := by
      rcases List.get?_eq_some.mp hy with ⟨h, _⟩; exact h
    have hzlen : z < row.length := by
      rcases List.get?_eq_some.mp hz with ⟨h, _⟩; exact h
    have hyH : y < H := hcl ▸ hylen
    have hzD : z < D := (hrl _ hrm) ▸ hzlen
    rw [build_chunk_body.eq_def, if_neg hA]
    refine bind_isSome
      (if_isSome (fun hlt => map_isSome _ (idx3_isSome hrect hxlen (hcl ▸ hlt) hzD)) rfl)
      fun ga => ?_
    refine bind_isSome
      (if_isSome (fun hlt => map_isSome _ (idx3_isSome hrect hxlen (hcl ▸ hlt) hzD)) rfl)
      fun nb1 => ?_
    refine bind_isSome (gbf_grass_isSome _ _ _ _ _ _ _ _ _ hG) fun st1 => ?_
    refine bind_isSome
      (if_isSome (fun _ => map_isSome _
        (idx3_isSome hrect hxlen (lt_of_le_of_lt (Nat.sub_le y 1) hyH) hzD)) rfl)
      fun nb2 => ?_
    refine bind_isSome (gbf_grass_isSome _ _ _ _ _ _ _ _ _ hG) fun st2 => ?_
    refine bind_isSome
      (if_isSome (fun _ => map_isSome _
        (idx3_isSome hrect (lt_of_le_of_lt (Nat.sub_le x 1) hxlen) hyH hzD)) rfl)
      fun nb3 => ?_
    refine bind_isSome rfl fun nc3 => ?_
    refine bind_isSome (gbf_grass_isSome _ _ _ _ _ _ _ _ _ hG) fun st3 => ?_
    refine bind_isSome
      (if_isSome (fun hlt => map_isSome _ (idx3_isSome hrect hlt hyH hzD)) rfl)
      fun nb4 => ?_
    refine bind_isSome rfl fun nc4 => ?_
    refine bind_isSome (gbf_grass_isSome _ _ _ _ _ _ _ _ _ hG) fun st4 => ?_
    refine bind_isSome
      (if_isSome (fun hlt => map_isSome _
        (idx3_isSome hrect hxlen hyH ((hrl _ hrm) ▸ hlt))) rfl)
      fun nb5 => ?_
    refine bind_isSome rfl fun nc5 => ?_
    refine bind_isSome (gbf_grass_isSome _ _ _ _ _ _ _ _ _ hG) fun st5 => ?_
    refine bind_isSome
      (if_isSome (fun _ => map_isSome _
        (idx3_isSome hrect hxlen hyH (lt_of_le_of_lt (Nat.sub_le z 1) hzD))) rfl)
      fun nb6 => ?_
    refine bind_isSome rfl fun nc6 => ?_
    exact gbf_grass_isSome _ _ _ _ _ _ _ _ _ hG

theorem build_chunk_isSome (blocks : Grid) (xo zo : ℚ) {H D : ℕ}
    (hrect : RectGrid blocks H D) (hgrass : GrassAirGrid blocks) :
    (build_chunk blocks xo zo none none none none).isSome := by
  rw [build_chunk]
  refine foldlM_option_isSome _ _ ?_ ([], [])
  intro a ha s
  have hx : blocks.get? a.1 = some a.2 := by
    rw [List.get?_eq_getElem?]
    exact List.mem_enum_iff_getElem?.mp ha
  refine foldlM_option_isSome _ _ ?_ s
  intro a2 ha2 s2
  have hy : a.2.get? a2.1 = some a2.2 := by
    rw [List.get?_eq_getElem?]
    exact List.mem_enum_iff_getElem?.mp ha2
  refine foldlM_option_isSome _ _ ?_ s2
  intro a3 ha3 s3
  have hz : a2.2.get? a3.1 = some a3.2 := by
    rw [List.get?_eq_getElem?]
    exact List.mem_enum_iff_getElem?.mp ha3
  exact body_isSome blocks xo zo hrect hgrass hx hy hz s3

/-- Claim C1: for a (Grass) block a face is emitted iff the resolved
neighbor (in-chunk first, else the neighbor-chunk block) is Air; when both
are absent (a lateral boundary with no neighbor grid supplied) nothing is
emitted and nothing panics; and building a whole rectangular Grass/Air
chunk with all four neighbor grids absent never panics.  (Air blocks are
skipped before any face call, so they emit nothing.) -/
theorem c1_face_culling :
    (∀ base face nb (b : Block) pos (v : List Vertex) (i : List ℕ) ga nc,
        b.block_type = BlockType.Grass →
        (get_block_face base face nb b pos v i ga nc).isSome = true ∧
          (get_block_face base face nb b pos v i ga nc ≠ some (v, i) ↔
            ∃ n, resolved_neighbor nb nc = some n ∧ n.block_type = BlockType.Air)) ∧
    (∀ base face (b : Block) pos (v : List Vertex) (i : List ℕ) ga,
        get_block_face base face none b pos v i ga none = some (v, i)) ∧
    (∀ blocks x_offset z_offset (H D : ℕ), RectGrid blocks H D → GrassAirGrid blocks →
        (build_chunk blocks x_offset z_offset none none none none).isSome = true) :=
  ⟨fun base face nb b pos v i ga nc hb => gbf_grass_char base face nb b pos v i ga nc hb,
   fun _ _ _ _ _ _ _ => rfl,
   fun blocks xo zo _ _ h1 h2 => build_chunk_isSome blocks xo zo h1 h2⟩

/-- Claim C1 witness: a Grass block with an Air in-chunk neighbor, and a
neighborless build of a concrete rectangular Grass/Air grid. -/
theorem c1_face_culling_witness :
    ((get_block_face 0 Face.Top (some air_block) grass_block ⟨0, 0, 0⟩ [] [] false
        none).isSome = true ∧
      (get_block_face 0 Face.Top (some air_block) grass_block ⟨0, 0, 0⟩ [] [] false none ≠
          some ([], []) ↔
        ∃ n, resolved_neighbor (some air_block) none = some n ∧
          n.block_type = BlockType.Air)) ∧
      (build_chunk [[[air_block, grass_block]]] 0 0 none none none none).isSome = true :=
  ⟨c1_face_culling.1 0 Face.Top (some air_block) grass_block ⟨0, 0, 0⟩ [] [] false none rfl,
   c1_face_culling.2.2 [[[air_block, grass_block]]] 0 0 1 2
     (by unfold RectGrid; decide) (by unfold GrassAirGrid; decide)⟩

/-- Claim C8 witness at Water and Stone. -/
theorem c8_unmapped_block_fatal_witness :
    get_mesh_texture_and_pos Face.Top BlockType.Water ⟨0, 0, 0⟩ false = none ∧
      get_block_face 0 Face.Left (some ⟨BlockType.Air⟩) ⟨BlockType.Stone⟩ ⟨0, 0, 0⟩ [] [] false
        none = none :=
  ⟨c8_unmapped_block_fatal.1 Face.Top BlockType.Water ⟨0, 0, 0⟩ false (by decide),
   c8_unmapped_block_fatal.2 0 Face.Left ⟨BlockType.Stone⟩ ⟨0, 0, 0⟩ [] [] false none
     ⟨BlockType.Air⟩ rfl (by decide)⟩

/-! ## Player-side helpers and fixtures -/

/-- The tail of update_camera after the five chunk fetches and the
collision probe succeed (verbatim continuation of the source body);
update_camera_eq below proves the factorization. -/
def update_rest (p : Player) (camera : Camera) (dt : ℚ) (cur_chunk : Chunk)
    (mvx mvz : ℚ) (probes : Block × Block) : Option (Player × Camera) :=
  let blocked := move_blocked p mvx probes.1 probes.2
  let lp : V3 := if blocked then p.local_pos else
    ⟨p.local_pos.x + mvx, p.local_pos.y, p.local_pos.z + mvz⟩
  let tx0 : ℚ × ℕ := if lp.x > 1 then (lp.x - 1, p.world_pos.x + 1) else (lp.x, p.world_pos.x)
  let tz0 : ℚ × ℕ := if lp.z > 1 then (lp.z - 1, p.world_pos.z + 1) else (lp.z, p.world_pos.z)
  Option.bind
    (if tx0.1 < -1 then
      (if tx0.2 = 0 then none else some (tx0.1 + 1, tx0.2 - 1)) else some tx0) fun tx =>
  Option.bind
    (if tz0.1 < -1 then
      (if tz0.2 = 0 then none else some (tz0.1 + 1, tz0.2 - 1)) else some tz0) fun tz =>
  Option.bind
    (if p.world_pos.y < 2 then none else
      idx3 cur_chunk.blocks (tx.2 % 16) (p.world_pos.y - 2) (tz.2 % 16)) fun block_bottom =>
  Option.bind
    (if block_bottom.block_type = BlockType.Air then
      let ly := lp.y - p.fall_speed * dt
      if ly < -1 then
        (if p.world_pos.y = 0 then none else some (ly + 1, p.world_pos.y - 1))
      else some (ly, p.world_pos.y)
    else some (lp.y, p.world_pos.y)) fun ty =>
  let yaw2 := camera.yaw + p.rotate_horizontal * p.sensitivity * dt
  let pitch2 := camera.pitch + (-p.rotate_vertical) * p.sensitivity * dt
  let pitch3 := if pitch2 < -SAFE_FRAC_PI_2 then -SAFE_FRAC_PI_2
    else if pitch2 > SAFE_FRAC_PI_2 then SAFE_FRAC_PI_2 else pitch2
  let p2 : Player :=
    { p with rotate_horizontal := 0, rotate_vertical := 0,
             local_pos := ⟨tx.1, ty.1, tz.1⟩, world_pos := ⟨tx.2, ty.2, tz.2⟩ }
  let cam2 : Camera :=
    ⟨⟨tx.1 + (tx.2 : ℚ), ty.1 + (ty.2 : ℚ), tz.1 + (tz.2 : ℚ)⟩, yaw2, pitch3⟩
  some (p2, cam2)

def cam0 : Camera := ⟨⟨0, 0, 0⟩, 0, 0⟩

/-- The moving player of the C6 scenario: forward key held, speed 4. -/
def p6 : Player := { Player.new 4 1 with amount_forward := 1 }

/-- The blocked player of the C7 scenario: forward and right keys held,
local x offset 1/16 (inside the 0.1 collision threshold). -/
def p7 : Player :=
  { Player.new 1 1 with amount_forward := 1, amount_right := 1, local_pos := ⟨1/16, 1/2, 0⟩ }

/-- A player whose world height is 0 (C10 scenario). -/
def p10 : Player := { Player.new 1 1 with world_pos := ⟨30, 0, 30⟩ }

/-- A player in the corner chunk of the lattice (C9 scenario). -/
def p9 : Player := { Player.new 1 1 with world_pos := ⟨0, 29, 0⟩ }

/-- A stationary player for the witnesses of the amended C6/C7 claims. -/
def pW : Player := Player.new 1 1

/-- The state pW reaches after one update (it only falls by 1). -/
def p2W : Player := { Player.new 1 1 with local_pos := ⟨1/2, -1/2, 0⟩ }

def cam2W : Camera := ⟨⟨61/2, 57/2, 30⟩, 0, 0⟩

/-- The all-Air grid with one Grass block at [14][28][13], the cell the
collision check probes from world position (30, 29, 30). -/
def solid_grid : Grid :=
  air_grid.set 14 ((List.replicate 30 (List.replicate 16 air_block)).set 28
    ((List.replicate 16 air_block).set 13 grass_block))

def solid_chunk : Chunk := ⟨solid_grid, none⟩

/-- world_air with the solid-probe chunk at index 17, the chunk of world
position (30, 29, 30). -/
def world_c7 : List Chunk := world_air.set 17 solid_chunk

/-! ## Player-side lemmas -/

theorem bind_none_of_all {α β : Type _} {o : Option α} {f : α → Option β}
    (h : ∀ a, f a = none) : o.bind f = none := by
  cases o <;> simp [h]

theorem get?_replicate {α : Type _} {a : α} {n i : ℕ} (h : i < n) :
    (List.replicate n a).get? i = some a := by
  rw [List.get?_eq_getElem?, List.getElem?_replicate, if_pos h]

theorem get?_set_self {α : Type _} {l : List α} {i : ℕ} {a : α} (h : i < l.length) :
    (l.set i a).get? i = some a := by
  rw [List.get?_eq_getElem?, List.getElem?_set_self h]

theorem get?_set_ne {α : Type _} {l : List α} {i j : ℕ} {a : α} (h : i ≠ j) :
    (l.set i a).get? j = l.get? j := by
  rw [List.get?_eq_getElem?, List.getElem?_set_ne h, List.get?_eq_getElem?]

theorem idx3_air {x y z : ℕ} (hx : x < 16) (hy : y < 30) (hz : z < 16) :
    idx3 air_grid x y z = some air_block := by
  unfold idx3 air_grid
  rw [get?_replicate hx, Option.some_bind, get?_replicate hy, Option.some_bind,
    get?_replicate hz]

/-- update_camera factors through update_rest once the five chunk fetches
and the probe are known to succeed. -/
theorem update_camera_eq (p : Player) (camera : Camera) (dt : ℚ) (chunks : List Chunk)
    (yaw_sin yaw_cos : ℚ) (cur fc bc lc rc : Chunk) (pr : Block × Block)
    (hcur : chunks.get? (chunk_index p.world_pos) = some cur)
    (h16 : ¬ chunk_index p.world_pos < 16)
    (hfc : chunks.get? (chunk_index p.world_pos - 16) = some fc)
    (hbc : chunks.get? (chunk_index p.world_pos + 16) = some bc)
    (hlc : chunks.get? (chunk_index p.world_pos + 1) = some lc)
    (h0 : ¬ chunk_index p.world_pos = 0)
    (hrc : chunks.get? (chunk_index p.world_pos - 1) = some rc)
    (hpr : right_probe cur lc p.world_pos = some pr) :
    update_camera p camera dt chunks yaw_sin yaw_cos =
      update_rest p camera dt cur (move_am_x p yaw_sin yaw_cos dt)
        (move_am_z p yaw_sin yaw_cos dt) pr := by
  simp only [update_camera, update_rest, hcur, Option.some_bind, if_neg h16, hfc, hbc, hlc,
    if_neg h0, hrc, hpr]

/-- One lateral boundary transfer: the transferred pair preserves
world + local, and keeps the local component in [-1, 1] when the incoming
value lies in [-2, 2]. -/
theorem transfer_spec (l : ℚ) (w : ℕ) (tx : ℚ × ℕ)
    (h : (if (if l > 1 then (l - 1, w + 1) else (l, w)).1 < -1 then
            (if (if l > 1 then (l - 1, w + 1) else (l, w)).2 = 0 then none
             else some ((if l > 1 then (l - 1, w + 1) else (l, w)).1 + 1,
                        (if l > 1 then (l - 1, w + 1) else (l, w)).2 - 1))
          else some (if l > 1 then (l - 1, w + 1) else (l, w))) = some tx) :
    ((tx.2 : ℚ) + tx.1 = (w : ℚ) + l) ∧
      (-2 ≤ l → l ≤ 2 → -1 ≤ tx.1 ∧ tx.1 ≤ 1) := by
  by_cases hgt : l > 1
  · simp only [if_pos hgt] at h
    rw [if_neg (by norm_num; linarith)] at h
    have htx := (Option.some.inj h).symm
    subst htx
    constructor
    · push_cast
      ring
    · intro hl1 hl2
      constructor <;> simp <;> linarith
  · simp only [if_neg hgt] at h
    by_cases hlt : l < -1
    · rw [if_pos hlt] at h
      by_cases hw : w = 0
      · rw [if_pos hw] at h
        cases h
      · rw [if_neg hw] at h
        have htx := (Option.some.inj h).symm
        subst htx
        constructor
        · have h1w : (1 : ℕ) ≤ w := Nat.one_le_iff_ne_zero.mpr hw
          push_cast [Nat.cast_sub h1w]
          ring
        · intro hl1 hl2
          constructor <;> simp <;> linarith
    · rw [if_neg hlt] at h
      have htx := (Option.some.inj h).symm
      subst htx
      constructor
      · ring
      · intro hl1 hl2
        constructor <;> simp <;> linarith

/-- The gravity step: world + local changes exactly by the fall amount
when the block below is Air, and the local y stays in [-1, 1] for a fall
amount in [0, 1]. -/
theorem gravity_spec (lpy fall dt2 : ℚ) (y : ℕ) (bb : Block) (ty : ℚ × ℕ)
    (h : (if bb.block_type = BlockType.Air then
            (if lpy - fall * dt2 < -1 then
              (if y = 0 then none else some (lpy - fall * dt2 + 1, y - 1))
             else some (lpy - fall * dt2, y))
          else some (lpy, y)) = some ty) :
    ((ty.2 : ℚ) + ty.1 =
      (y : ℚ) + lpy - (if bb.block_type = BlockType.Air then fall * dt2 else 0)) ∧
      (-1 ≤ lpy → lpy ≤ 1 → 0 ≤ fall * dt2 → fall * dt2 ≤ 1 → -1 ≤ ty.1 ∧ ty.1 ≤ 1) := by
  by_cases hair : bb.block_type = BlockType.Air
  · rw [if_pos hair] at h
    rw [if_pos hair]
    by_cases hlt : lpy - fall * dt2 < -1
    · rw [if_pos hlt] at h
      by_cases hy : y = 0
      · rw [if_pos hy] at h
        cases h
      · rw [if_neg hy] at h
        have hty := (Option.some.inj h).symm
        subst hty
        constructor
        · have h1y : (1 : ℕ) ≤ y := Nat.one_le_iff_ne_zero.mpr hy
          push_cast [Nat.cast_sub h1y]
          ring
        · intro h1 h2 h3 h4
          constructor <;> simp <;> linarith
    · rw [if_neg hlt] at h
      have hty := (Option.some.inj h).symm
      subst hty
      constructor
      · ring
      · intro h1 h2 h3 h4
        constructor <;> simp <;> linarith
  · rw [if_neg hair] at h
    rw [if_neg hair]
    have hty := (Option.some.inj h).symm
    subst hty
    constructor
    · ring
    · intro h1 h2 h3 h4
      exact ⟨h1, h2⟩

/-- Claim C10: every update reads the block grid at the unsigned heights
world_pos.y - 1 (collision probe) and world_pos.y - 2 (gravity), so for
any state with world_pos.y < 2 the usize subtraction underflows and the
update panics (none) instead of returning, a precondition stated nowhere
at the public interface. -/
theorem c10_y_underflow (p : Player) (camera : Camera) (dt : ℚ) (chunks : List Chunk)
    (yaw_sin yaw_cos : ℚ) (hy : p.world_pos.y < 2) :
    update_camera p camera dt chunks yaw_sin yaw_cos = none := by
  simp only [update_camera]
  refine bind_none_of_all fun cur => ?_
  refine bind_none_of_all fun fc => ?_
  refine bind_none_of_all fun bc => ?_
  refine bind_none_of_all fun lc => ?_
  refine bind_none_of_all fun rc => ?_
  refine bind_none_of_all fun probes => ?_
  refine bind_none_of_all fun tx => ?_
  refine bind_none_of_all fun tz => ?_
  rw [if_pos hy, Option.none_bind]

/-- Claim C10 witness: a player at world height 0. -/
theorem c10_y_underflow_witness :
    update_camera p10 cam0 1 [] 0 1 = none :=
  c10_y_underflow p10 cam0 1 [] 0 1 (by decide)

/-- Claim C9: in a 256-chunk world, when the chunk-index arithmetic of the
five lookups (current, front = i-16, back = i+16, left = i+1,
right = i-1) would underflow or leave 0..255 (index below 16 or at or
above 240), the update is a fatal bounds violation (none), never a wrapped
or out-of-range read; for interior indices all five lookups succeed. -/
theorem c9_chunk_bounds :
    (∀ (p : Player) (camera : Camera) (dt : ℚ) (chunks : List Chunk) (yaw_sin yaw_cos : ℚ),
        chunks.length = 256 →
        (chunk_index p.world_pos < 16 ∨ 240 ≤ chunk_index p.world_pos) →
        update_camera p camera dt chunks yaw_sin yaw_cos = none) ∧
    (∀ (chunks : List Chunk) (wp : NPoint3), chunks.length = 256 →
        16 ≤ chunk_index wp → chunk_index wp < 240 →
        (chunks.get? (chunk_index wp)).isSome = true ∧
          (chunks.get? (chunk_index wp - 16)).isSome = true ∧
          (chunks.get? (chunk_index wp + 16)).isSome = true ∧
          (chunks.get? (chunk_index wp + 1)).isSome = true ∧
          (chunks.get? (chunk_index wp - 1)).isSome = true) := by
  constructor
  · intro p camera dt chunks ys yc hlen hedge
    simp only [update_camera]
    rcases hedge with h | h
    · refine bind_none_of_all fun cur => ?_
      rw [if_pos h, Option.none_bind]
    · refine bind_none_of_all fun cur => ?_
      refine bind_none_of_all fun fc => ?_
      rw [List.get?_eq_none.mpr (by omega), Option.none_bind]
  · intro chunks wp hlen h1 h2
    refine ⟨?_, ?_, ?_, ?_, ?_⟩ <;>
      · rw [List.get?_eq_get (by omega)]
        rfl

/-- Claim C9 witness: the corner chunk (index 0) is fatal; index 17 is
interior and all five lookups succeed. -/
theorem c9_chunk_bounds_witness :
    update_camera p9 cam0 1 world_air 0 1 = none ∧
      ((world_air.get? (chunk_index ⟨30, 29, 30⟩)).isSome = true ∧
        (world_air.get? (chunk_index ⟨30, 29, 30⟩ - 16)).isSome = true ∧
        (world_air.get? (chunk_index ⟨30, 29, 30⟩ + 16)).isSome = true ∧
        (world_air.get? (chunk_index ⟨30, 29, 30⟩ + 1)).isSome = true ∧
        (world_air.get? (chunk_index ⟨30, 29, 30⟩ - 1)).isSome = true) :=
  ⟨c9_chunk_bounds.1 p9 cam0 1 world_air 0 1 (List.length_replicate 256 air_chunk)
      (Or.inl (by decide)),
   c9_chunk_bounds.2 world_air ⟨30, 29, 30⟩ (List.length_replicate 256 air_chunk)
      (by decide) (by decide)⟩

theorem p6_probe :
    right_probe air_chunk air_chunk p6.world_pos = some (air_block, air_block) := by
  have h30 : p6.world_pos = (⟨30, 29, 30⟩ : NPoint3) := rfl
  rw [h30, right_probe]
  norm_num
  rw [show air_chunk.blocks = air_grid from rfl,
    idx3_air (by norm_num) (by norm_num) (by norm_num), Option.some_bind,
    idx3_air (by norm_num) (by norm_num) (by norm_num), Option.some_bind]

theorem p6_mvx : move_am_x p6 0 1 (1/2) = 2 := by
  simp [move_am_x, p6, Player.new]
  norm_num

theorem p6_mvz : move_am_z p6 0 1 (1/2) = 0 := by
  simp [move_am_z, p6, Player.new]

theorem p6_update :
    update_camera p6 cam0 (1/2) world_air 0 1 =
      update_rest p6 cam0 (1/2) air_chunk 2 0 (air_block, air_block) := by
  have hci : chunk_index p6.world_pos = 17 := by decide
  rw [update_camera_eq p6 cam0 (1/2) world_air 0 1 air_chunk air_chunk air_chunk air_chunk
      air_chunk (air_block, air_block)
      (by rw [hci]; exact get?_replicate (by norm_num))
      (by rw [hci]; norm_num)
      (by rw [hci]; exact get?_replicate (by norm_num))
      (by rw [hci]; exact get?_replicate (by norm_num))
      (by rw [hci]; exact get?_replicate (by norm_num))
      (by rw [hci]; norm_num)
      (by rw [hci]; exact get?_replicate (by norm_num))
      p6_probe,
    p6_mvx, p6_mvz]

theorem p6_rest :
    (update_rest p6 cam0 (1/2) air_chunk 2 0 (air_block, air_block)).map
        (fun s => s.1.local_pos.x) = some (3/2) := by
  rw [update_rest]
  norm_num [move_blocked, Block.is_solid, air_block, p6, Player.new]
  rw [show air_chunk.blocks = air_grid from rfl,
    idx3_air (by norm_num) (by norm_num) (by norm_num), Option.some_bind]
  simp [air_block]

/-- Claim C6 counterexample: one update of a forward-moving player
(speed 4, dt 1/2, displacement 2) leaves local_pos.x = 3/2, outside
[-1, 1): the update transfers at most 1 into world_pos per axis, so a
displacement above 1 breaks the claimed invariant. -/
theorem c6_local_pos_counterexample :
    (update_camera p6 cam0 (1/2) world_air 0 1).map (fun s => s.1.local_pos.x) =
        some (3/2) ∧
      ¬ ((3/2 : ℚ) < 1) := by
  constructor
  · rw [p6_update]
    exact p6_rest
  · norm_num

/-- Claim C6 (amended): if the update completes and, before it, every
local_pos component lies in [-1, 1] and each applied displacement
component (move_am on x and z, fall_speed * dt on y) has magnitude at
most 1, then afterwards every local_pos component lies in the closed
interval [-1, 1] (not the claimed half-open [-1, 1)); each boundary
transfer moves exactly 1 between local_pos and the integer world_pos, so
world_pos + local_pos changes exactly by the displacement the update
applied (the whole move when not blocked, nothing when blocked; the fall
amount when the block below is Air). -/
theorem c6_local_pos_amended :
    ∀ (p : Player) (camera : Camera) (dt : ℚ) (chunks : List Chunk) (yaw_sin yaw_cos : ℚ)
      (p2 : Player) (cam2 : Camera),
      update_camera p camera dt chunks yaw_sin yaw_cos = some (p2, cam2) →
      -1 ≤ p.local_pos.x → p.local_pos.x ≤ 1 →
      -1 ≤ p.local_pos.y → p.local_pos.y ≤ 1 →
      -1 ≤ p.local_pos.z → p.local_pos.z ≤ 1 →
      |move_am_x p yaw_sin yaw_cos dt| ≤ 1 → |move_am_z p yaw_sin yaw_cos dt| ≤ 1 →
      0 ≤ p.fall_speed * dt → p.fall_speed * dt ≤ 1 →
      ((-1 ≤ p2.local_pos.x ∧ p2.local_pos.x ≤ 1) ∧
        (-1 ≤ p2.local_pos.y ∧ p2.local_pos.y ≤ 1) ∧
        (-1 ≤ p2.local_pos.z ∧ p2.local_pos.z ≤ 1)) ∧
      (∃ moved fell : Bool,
        ((p2.world_pos.x : ℚ) + p2.local_pos.x) =
            ((p.world_pos.x : ℚ) + p.local_pos.x) +
              (if moved then move_am_x p yaw_sin yaw_cos dt else 0) ∧
          ((p2.world_pos.z : ℚ) + p2.local_pos.z) =
            ((p.world_pos.z : ℚ) + p.local_pos.z) +
              (if moved then move_am_z p yaw_sin yaw_cos dt else 0) ∧
          ((p2.world_pos.y : ℚ) + p2.local_pos.y) =
            ((p.world_pos.y : ℚ) + p.local_pos.y) +
              (if fell then -(p.fall_speed * dt) else 0)) := by
  intro p camera dt chunks ys yc p2 cam2 h hx1 hx2 hy1 hy2 hz1 hz2 hmvx hmvz hf1 hf2
  have hmx := abs_le.mp hmvx
  have hmz := abs_le.mp hmvz
  simp only [update_camera] at h
  rcases Option.bind_eq_some.mp h with ⟨cur1, hcur1, h⟩
  rcases Option.bind_eq_some.mp h with ⟨fc1, hfc1, h⟩
  rcases Option.bind_eq_some.mp h with ⟨bc1, hbc1, h⟩
  rcases Option.bind_eq_some.mp h with ⟨lc1, hlc1, h⟩
  rcases Option.bind_eq_some.mp h with ⟨rc1, hrc1, h⟩
  rcases Option.bind_eq_some.mp h with ⟨pr1, hpr1, h⟩
  rcases Option.bind_eq_some.mp h with ⟨tx, htx, h⟩
  rcases Option.bind_eq_some.mp h with ⟨tz, htz, h⟩
  rcases Option.bind_eq_some.mp h with ⟨bb, hbb, h⟩
  rcases Option.bind_eq_some.mp h with ⟨ty, hty, h⟩
  have hp2 := Option.some.inj h
  rw [Prod.mk.injEq] at hp2
  obtain ⟨hp2p, -⟩ := hp2
  subst hp2p
  dsimp only at htx htz hty ⊢
  obtain ⟨hsx, hbx⟩ := transfer_spec _ _ _ htx
  obtain ⟨hsz, hbz⟩ := transfer_spec _ _ _ htz
  obtain ⟨hsy, hby⟩ := gravity_spec _ _ _ _ _ _ hty
  have hxb : -1 ≤ tx.1 ∧ tx.1 ≤ 1 := by
    apply hbx <;>
      cases hblk : move_blocked p (move_am_x p ys yc dt) pr1.1 pr1.2 <;>
        simp [hblk] <;> linarith
  have hzb : -1 ≤ tz.1 ∧ tz.1 ≤ 1 := by
    apply hbz <;>
      cases hblk : move_blocked p (move_am_x p ys yc dt) pr1.1 pr1.2 <;>
        simp [hblk] <;> linarith
  have hyb : -1 ≤ ty.1 ∧ ty.1 ≤ 1 := by
    apply hby
    · cases hblk : move_blocked p (move_am_x p ys yc dt) pr1.1 pr1.2 <;>
        simp [hblk] <;> linarith
    · cases hblk : move_blocked p (move_am_x p ys yc dt) pr1.1 pr1.2 <;>
        simp [hblk] <;> linarith
    · exact hf1
    · exact hf2
  refine ⟨⟨hxb, hyb, hzb⟩, !(move_blocked p (move_am_x p ys yc dt) pr1.1 pr1.2),
    decide (bb.block_type = BlockType.Air), ?_, ?_, ?_⟩
  · cases hblk : move_blocked p (move_am_x p ys yc dt) pr1.1 pr1.2 <;>
      simp [hblk] at hsx ⊢ <;> linarith
  · cases hblk : move_blocked p (move_am_x p ys yc dt) pr1.1 pr1.2 <;>
      simp [hblk] at hsz ⊢ <;> linarith
  · by_cases hair : bb.block_type = BlockType.Air <;>
      cases hblk : move_blocked p (move_am_x p ys yc dt) pr1.1 pr1.2 <;>
        simp [hair, hblk] at hsy ⊢ <;> linarith

theorem pW_mvx : move_am_x pW 0 1 (1/30) = 0 := by
  simp [move_am_x, pW, Player.new]

theorem pW_mvz : move_am_z pW 0 1 (1/30) = 0 := by
  simp [move_am_z, pW, Player.new]

theorem probe_303030 :
    right_probe air_chunk air_chunk (⟨30, 29, 30⟩ : NPoint3) = some (air_block, air_block) := by
  rw [right_probe]
  norm_num
  rw [show air_chunk.blocks = air_grid from rfl,
    idx3_air (by norm_num) (by norm_num) (by norm_num), Option.some_bind,
    idx3_air (by norm_num) (by norm_num) (by norm_num), Option.some_bind]

theorem pW_update :
    update_camera pW cam0 (1/30) world_air 0 1 = some (p2W, cam2W) := by
  have hci : chunk_index pW.world_pos = 17 := by decide
  rw [update_camera_eq pW cam0 (1/30) world_air 0 1 air_chunk air_chunk air_chunk air_chunk
      air_chunk (air_block, air_block)
      (by rw [hci]; exact get?_replicate (by norm_num))
      (by rw [hci]; norm_num)
      (by rw [hci]; exact get?_replicate (by norm_num))
      (by rw [hci]; exact get?_replicate (by norm_num))
      (by rw [hci]; exact get?_replicate (by norm_num))
      (by rw [hci]; norm_num)
      (by rw [hci]; exact get?_replicate (by norm_num))
      (show right_probe air_chunk air_chunk pW.world_pos = some (air_block, air_block) from
        probe_303030),
    pW_mvx, pW_mvz, update_rest]
  norm_num [move_blocked, Block.is_solid, air_block, pW, Player.new]
  rw [show air_chunk.blocks = air_grid from rfl,
    idx3_air (by norm_num) (by norm_num) (by norm_num), Option.some_bind]
  norm_num [air_block, SAFE_FRAC_PI_2, p2W, cam2W, Player.new, cam0]

/-- Claim C6 (amended) witness: a stationary player falling by exactly 1
block in one update. -/
theorem c6_local_pos_amended_witness :
    ((-1 ≤ p2W.local_pos.x ∧ p2W.local_pos.x ≤ 1) ∧
        (-1 ≤ p2W.local_pos.y ∧ p2W.local_pos.y ≤ 1) ∧
        (-1 ≤ p2W.local_pos.z ∧ p2W.local_pos.z ≤ 1)) ∧
      (∃ moved fell : Bool,
        ((p2W.world_pos.x : ℚ) + p2W.local_pos.x) =
            ((pW.world_pos.x : ℚ) + pW.local_pos.x) +
              (if moved then move_am_x pW 0 1 (1/30) else 0) ∧
          ((p2W.world_pos.z : ℚ) + p2W.local_pos.z) =
            ((pW.world_pos.z : ℚ) + pW.local_pos.z) +
              (if moved then move_am_z pW 0 1 (1/30) else 0) ∧
          ((p2W.world_pos.y : ℚ) + p2W.local_pos.y) =
            ((pW.world_pos.y : ℚ) + pW.local_pos.y) +
              (if fell then -(pW.fall_speed * (1/30)) else 0)) :=
  c6_local_pos_amended pW cam0 (1/30) world_air 0 1 p2W cam2W pW_update
    (by norm_num [pW, Player.new]) (by norm_num [pW, Player.new])
    (by norm_num [pW, Player.new]) (by norm_num [pW, Player.new])
    (by norm_num [pW, Player.new]) (by norm_num [pW, Player.new])
    (by rw [pW_mvx]; norm_num) (by rw [pW_mvz]; norm_num)
    (by norm_num [pW, Player.new]) (by norm_num [pW, Player.new])

theorem world_c7_get_17 : world_c7.get? 17 = some solid_chunk := by
  rw [world_c7, get?_set_self (by rw [world_air, List.length_replicate]; norm_num)]

theorem world_c7_get_other {i : ℕ} (hne : (17 : ℕ) ≠ i) (hlt : i < 256) :
    world_c7.get? i = some air_chunk := by
  rw [world_c7, get?_set_ne hne, world_air, get?_replicate hlt]

theorem idx3_solid_probe : idx3 solid_grid 14 28 13 = some grass_block := by
  unfold idx3 solid_grid
  rw [get?_set_self (by decide), Option.some_bind, get?_set_self (by decide),
    Option.some_bind, get?_set_self (by decide)]

theorem idx3_solid_below : idx3 solid_grid 14 27 14 = some air_block := by
  unfold idx3 solid_grid
  rw [get?_set_self (by decide), Option.some_bind, get?_set_ne (by norm_num),
    get?_replicate (by norm_num), Option.some_bind, get?_replicate (by norm_num)]

theorem p7_probe :
    right_probe solid_chunk air_chunk p7.world_pos = some (grass_block, air_block) := by
  have h30 : p7.world_pos = (⟨30, 29, 30⟩ : NPoint3) := rfl
  rw [h30, right_probe]
  norm_num
  rw [show solid_chunk.blocks = solid_grid from rfl, show air_chunk.blocks = air_grid from rfl,
    idx3_solid_probe, Option.some_bind,
    idx3_air (by norm_num) (by norm_num) (by norm_num), Option.some_bind]

theorem p7_mvx : move_am_x p7 0 1 (1/4) = 1/4 := by
  simp [move_am_x, p7, Player.new]

theorem p7_mvz : move_am_z p7 0 1 (1/4) = 1/4 := by
  simp [move_am_z, p7, Player.new]

theorem p7_blocked : move_blocked p7 (1/4) grass_block air_block = true := by
  rw [move_blocked]
  norm_num [Block.is_solid, grass_block, p7, Player.new]

theorem p7_update :
    update_camera p7 cam0 (1/4) world_c7 0 1 =
      update_rest p7 cam0 (1/4) solid_chunk (1/4) (1/4) (grass_block, air_block) := by
  have hci : chunk_index p7.world_pos = 17 := by decide
  rw [update_camera_eq p7 cam0 (1/4) world_c7 0 1 solid_chunk air_chunk air_chunk air_chunk
      air_chunk (grass_block, air_block)
      (by rw [hci]; exact world_c7_get_17)
      (by rw [hci]; norm_num)
      (by rw [hci]; exact world_c7_get_other (by norm_num) (by norm_num))
      (by rw [hci]; exact world_c7_get_other (by norm_num) (by norm_num))
      (by rw [hci]; exact world_c7_get_other (by norm_num) (by norm_num))
      (by rw [hci]; norm_num)
      (by rw [hci]; exact world_c7_get_other (by norm_num) (by norm_num))
      p7_probe,
    p7_mvx, p7_mvz]

theorem p7_rest :
    (update_rest p7 cam0 (1/4) solid_chunk (1/4) (1/4) (grass_block, air_block)).map
        (fun s => s.1.local_pos.z) = some 0 := by
  rw [update_rest]
  norm_num [move_blocked, Block.is_solid, grass_block, air_block, p7, Player.new]
  rw [show solid_chunk.blocks = solid_grid from rfl, idx3_solid_below, Option.some_bind]
  simp [air_block]

/-- Claim C7 counterexample: with the probed block solid,
local_pos.x = 1/16 (inside the threshold) and move_am.x = 1/4 (toward the
boundary), the probe rejects — and the z displacement of 1/4, which the
probe does not cover, is also withheld: local_pos.z stays 0, refuting
that the unblocked component is still applied. -/
theorem c7_collision_counterexample :
    move_am_z p7 0 1 (1/4) = 1/4 ∧
      move_blocked p7 (move_am_x p7 0 1 (1/4)) grass_block air_block = true ∧
      (update_camera p7 cam0 (1/4) world_c7 0 1).map (fun s => s.1.local_pos.z) = some 0 ∧
      p7.local_pos.z = 0 ∧ (1/4 : ℚ) ≠ 0 := by
  refine ⟨p7_mvz, ?_, ?_, rfl, by norm_num⟩
  · rw [p7_mvx]
    exact p7_blocked
  · rw [p7_update]
    exact p7_rest

/-- Claim C7 (amended): the collision check rejects motion only for the
single probed condition (probed blocks solid, local_pos.x under the 1/10
threshold, move_am.x above 1/100) — but when it rejects, the entire
horizontal displacement is withheld: world + local changes by the full
move on both x and z when not blocked, and by zero on both when blocked,
so unblocked components are applied only when the probe does not fire. -/
theorem c7_collision_amended :
    ∀ (p : Player) (camera : Camera) (dt : ℚ) (chunks : List Chunk) (yaw_sin yaw_cos : ℚ)
      (p2 : Player) (cam2 : Camera) (cur lc : Chunk) (brb brt : Block),
      update_camera p camera dt chunks yaw_sin yaw_cos = some (p2, cam2) →
      chunks.get? (chunk_index p.world_pos) = some cur →
      chunks.get? (chunk_index p.world_pos + 1) = some lc →
      right_probe cur lc p.world_pos = some (brb, brt) →
      (((p2.world_pos.x : ℚ) + p2.local_pos.x) - ((p.world_pos.x : ℚ) + p.local_pos.x) =
          (if move_blocked p (move_am_x p yaw_sin yaw_cos dt) brb brt then 0
           else move_am_x p yaw_sin yaw_cos dt)) ∧
        (((p2.world_pos.z : ℚ) + p2.local_pos.z) - ((p.world_pos.z : ℚ) + p.local_pos.z) =
          (if move_blocked p (move_am_x p yaw_sin yaw_cos dt) brb brt then 0
           else move_am_z p yaw_sin yaw_cos dt)) := by
  intro p camera dt chunks ys yc p2 cam2 cur lc brb brt h hcur hlc hpr
  simp only [update_camera] at h
  rcases Option.bind_eq_some.mp h with ⟨cur1, hcur1, h⟩
  rw [hcur] at hcur1
  have hceq := Option.some.inj hcur1
  subst hceq
  rcases Option.bind_eq_some.mp h with ⟨fc1, hfc1, h⟩
  rcases Option.bind_eq_some.mp h with ⟨bc1, hbc1, h⟩
  rcases Option.bind_eq_some.mp h with ⟨lc1, hlc1, h⟩
  rw [hlc] at hlc1
  have hleq := Option.some.inj hlc1
  subst hleq
  rcases Option.bind_eq_some.mp h with ⟨rc1, hrc1, h⟩
  rcases Option.bind_eq_some.mp h with ⟨pr1, hpr1, h⟩
  rw [hpr] at hpr1
  have hpeq := Option.some.inj hpr1
  subst hpeq
  rcases Option.bind_eq_some.mp h with ⟨tx, htx, h⟩
  rcases Option.bind_eq_some.mp h with ⟨tz, htz, h⟩
  rcases Option.bind_eq_some.mp h with ⟨bb, hbb, h⟩
  rcases Option.bind_eq_some.mp h with ⟨ty, hty, h⟩
  have hp2 := Option.some.inj h
  rw [Prod.mk.injEq] at hp2
  obtain ⟨hp2p, -⟩ := hp2
  subst hp2p
  dsimp only at htx htz ⊢
  have hsx := (transfer_spec _ _ _ htx).1
  have hsz := (transfer_spec _ _ _ htz).1
  cases hblk : move_blocked p (move_am_x p ys yc dt) brb brt with
  | true =>
      simp [hblk] at hsx hsz ⊢
      constructor <;> linarith
  | false =>
      simp [hblk] at hsx hsz ⊢
      constructor <;> linarith

/-- Claim C7 (amended) witness: the stationary player again — the probe
does not fire and the (zero) displacement is applied on both axes. -/
theorem c7_collision_amended_witness :
    (((p2W.world_pos.x : ℚ) + p2W.local_pos.x) - ((pW.world_pos.x : ℚ) + pW.local_pos.x) =
        (if move_blocked pW (move_am_x pW 0 1 (1/30)) air_block air_block then 0
         else move_am_x pW 0 1 (1/30))) ∧
      (((p2W.world_pos.z : ℚ) + p2W.local_pos.z) - ((pW.world_pos.z : ℚ) + pW.local_pos.z) =
        (if move_blocked pW (move_am_x pW 0 1 (1/30)) air_block air_block then 0
         else move_am_z pW 0 1 (1/30))) :=
  c7_collision_amended pW cam0 (1/30) world_air 0 1 p2W cam2W air_chunk air_chunk air_block
    air_block pW_update
    (by rw [show chunk_index pW.world_pos = 17 from by decide]
        exact get?_replicate (by norm_num))
    (by rw [show chunk_index pW.world_pos = 17 from by decide]
        exact get?_replicate (by norm_num))
    (show right_probe air_chunk air_chunk pW.world_pos = some (air_block, air_block) from
      probe_303030)

end MC
